import Mathlib

/-
  Shallow embedding of the viewer's ingestion/normalization pipeline
  (src/viewer/src/App.tsx, `loadSampleData` and its helpers):
  the source resolver (API/static fetch with fallback), the type
  normalizer (alias table plus heuristic fallback), the per-node
  artifact projector (`buildNodeArtifacts` over schema versions
  "1.1" and "1.2"), and the node/edge mapping to renderer records.

  Optional/absent JS values are modelled with `Option`; the JS `||`
  on strings (where the empty string is falsy) is `jsOrS`.
-/

namespace Viz

/-- JS `a || b` on optional strings: `a` wins unless it is absent or empty. -/
def jsOrS (a b : Option String) : Option String :=
  match a with
  | some s => if s = "" then b else some s
  | none => b

/-- JS truthiness of an optional string value. -/
def optTruthy : Option String → Bool
  | some s => decide (s ≠ "")
  | none => false

/-- Character-list head test: `leadsWith p s` holds when `p` begins `s`.
Models the anchored regex test used by the heuristic fallback. -/
def leadsWith : List Char → List Char → Bool
  | [], _ => true
  | _ :: _, [] => false
  | p :: ps, c :: cs => p == c && leadsWith ps cs

/-- A `{ content }` wrapper, as stored under the v1.2 named artifact keys. -/
structure ContentRec where
  content : Option String := none
deriving DecidableEq

/-- The shape of the `model_info` field of a view: either a free-form
payload passed through from a v1.1 artifact bag, or the `{ name: ... }`
object built inline by the v1.2 llm branch. -/
inductive ModelInfo where
  | payload (s : String)
  | named (name : Option String)
deriving DecidableEq

/-- A free-form v1.1 role bag (`artifactsRoot.prompt` / `.llm` / `.parser`),
restricted to the fields the projector reads. -/
structure ArtifactBag where
  prompt : Option String := none
  input_variables : Option (List String) := none
  resolved_prompt : Option String := none
  input : Option String := none
  output : Option String := none
  model_info : Option ModelInfo := none
  parser_type : Option String := none
deriving DecidableEq

/-- The document-level `artifacts` object, restricted to the keys the
projector reads: v1.1 role keys and v1.2 named keys. -/
structure ArtifactsRoot where
  prompt : Option ArtifactBag := none
  llm : Option ArtifactBag := none
  parser : Option ArtifactBag := none
  formatted_prompt : Option ContentRec := none
  llm_output : Option ContentRec := none
  final_output : Option ContentRec := none
deriving DecidableEq

/-- A node of the consumed document, restricted to the fields the
normalizer and projector read. -/
structure NodeRecord where
  id : String
  type : String
  label : Option String := none
  dataProvider : Option String := none
  dataModelType : Option String := none
  dataTemplate : Option String := none
  configTemplate : Option String := none
  configInputVariables : Option (List String) := none
  configModel : Option String := none
  templatePreview : Option String := none
deriving DecidableEq

/-- An event of the consumed document, restricted to the fields
`findEvent` and the projector read (both id spellings are kept). -/
structure EventRecord where
  node_id : Option String := none
  nodeId : Option String := none
  kind : Option String := none
  input_preview : Option String := none
deriving DecidableEq

/-- An edge endpoint: either a bare node-id string or a composite
`{ nodeId, portId }` object. -/
inductive EdgeEndpoint where
  | str (s : String)
  | ref (nodeId : String) (portId : Option String)
deriving DecidableEq

/-- An edge of the consumed document. -/
structure EdgeRecord where
  id : String
  source : EdgeEndpoint
  target : EdgeEndpoint
  label : Option String := none
deriving DecidableEq

/-- A consumed graph document, restricted to the parts the pipeline reads. -/
structure GraphDoc where
  metaVersion : Option String := none
  nodes : List NodeRecord := []
  edges : List EdgeRecord := []
  events : List EventRecord := []
  artifacts : ArtifactsRoot := {}
deriving DecidableEq

/-- Static alias table of `normalizeType` (App.tsx lines 209-224):
raw type string to renderer category. -/
def aliasMap : String → Option String
  | "prompt" => some "promptTemplate"
  | "PromptTemplate" => some "promptTemplate"
  | "promptTemplate" => some "promptTemplate"
  | "llm" => some "llm"
  | "chatModel" => some "llm"
  | "ChatOpenAI" => some "llm"
  | "ChatAnthropic" => some "llm"
  | "Groq" => some "llm"
  | "parser" => some "parser"
  | "StrOutputParser" => some "parser"
  | _ => none

/-- `normalizeType` (App.tsx line 225): `map[t] || t`.  Every alias value
is a non-empty string, so the JS `||` reduces to this match. -/
def normalizeType (t : String) : String :=
  match aliasMap t with
  | some v => v
  | none => t

/-- The anchored provider-name test of the heuristic fallback
(App.tsx line 305): the regex test of label. -/
def labelHasProviderHead (label : String) : Bool :=
  leadsWith "Groq:".data label.data || leadsWith "ChatOpenAI:".data label.data ||
  leadsWith "Anthropic:".data label.data || leadsWith "OpenAI:".data label.data

/-- The heuristic fallback body (App.tsx lines 302-311): inspects id,
label and data fields; when nothing matches, the incoming normalized
type `nt` is kept unchanged. -/
def heuristicStep (n : NodeRecord) (nt : String) : String :=
  let label := n.label.getD ""
  if n.id = "llm" ∨ labelHasProviderHead label = true ∨
      n.dataModelType = some "chat" ∨ optTruthy n.dataProvider = true then "llm"
  else if n.id = "prompt" then "promptTemplate"
  else if n.id = "parser" then "parser"
  else nt

/-- The guard-and-fallback structure of the node mapping (App.tsx lines
300-312), parametric in the fallback so that non-evaluation of the
heuristic is expressible: the fallback `h` is consulted only when the
alias-normalized type is empty or equals "unknown". -/
def normalizedTypeWith (h : NodeRecord → String → String) (n : NodeRecord) : String :=
  let nt := normalizeType n.type
  if nt = "" ∨ nt = "unknown" then h n nt else nt

/-- The normalized renderer category of a node: alias lookup guarded by
the heuristic fallback, exactly as in App.tsx lines 300-312. -/
def normalizedTypeOf (n : NodeRecord) : String :=
  normalizedTypeWith heuristicStep n

/-- The categories the normalizer can produce other than a passed-through
raw string: the codomain of the alias table and the heuristic. -/
def knownCategories : List String := ["promptTemplate", "llm", "parser"]

/-- Version selection (App.tsx line 229): `data?.metadata?.version || '1.1'`. -/
def versionOf (metaVersion : Option String) : String :=
  match metaVersion with
  | some s => if s = "" then "1.1" else s
  | none => "1.1"

/-- The predicate of `findEvent` (App.tsx line 234), with JS operator
precedence kept: `e.node_id === nodeId || (e.nodeId === nodeId &&
(kind ? e.kind === kind : true))`. -/
def findEventPred (nid kind : String) (e : EventRecord) : Bool :=
  decide (e.node_id = some nid) ||
    (decide (e.nodeId = some nid) &&
      (if kind = "" then true else decide (e.kind = some kind)))

/-- `findEvent` (App.tsx lines 233-234): first event matching the predicate. -/
def findEvent (events : List EventRecord) (nid kind : String) : Option EventRecord :=
  events.find? (findEventPred nid kind)

/-- The per-node artifact view produced by `buildNodeArtifacts`; the
empty object `{}` is the view with every field absent. -/
structure ArtifactView where
  template : Option String := none
  input_variables : Option (List String) := none
  resolved_prompt : Option String := none
  input : Option String := none
  output : Option String := none
  model_info : Option ModelInfo := none
  parser_type : Option String := none
deriving DecidableEq

/-- `buildNodeArtifacts` (App.tsx lines 236-295): version check first,
then raw-type/id dispatch; v1.1 reads the role bags under `prompt` /
`llm` / `parser`, any other version reads the named keys
`formatted_prompt` / `llm_output` / `final_output` and start events. -/
def buildNodeArtifacts (version : String) (events : List EventRecord)
    (artifactsRoot : ArtifactsRoot) (node : NodeRecord) : ArtifactView :=
  let t := node.type
  let id := node.id
  if version = "1.1" then
    if id = "prompt" ∨ t = "promptTemplate" ∨ t = "PromptTemplate" then
      let a := artifactsRoot.prompt.getD {}
      { template := jsOrS a.prompt node.dataTemplate,
        input_variables := a.input_variables,
        resolved_prompt := a.resolved_prompt }
    else if id = "llm" ∨ t = "chatModel" ∨ t = "llm" then
      let a := artifactsRoot.llm.getD {}
      { input := a.input, output := a.output, model_info := a.model_info }
    else if id = "parser" ∨ t = "parser" ∨ t = "StrOutputParser" then
      let a := artifactsRoot.parser.getD {}
      { input := a.input, output := a.output, parser_type := a.parser_type }
    else {}
  else if t = "PromptTemplate" then
    { template := jsOrS node.configTemplate node.templatePreview,
      input_variables := node.configInputVariables,
      resolved_prompt := artifactsRoot.formatted_prompt.bind ContentRec.content }
  else if t = "ChatOpenAI" ∨ t = "ChatAnthropic" ∨ t = "Groq" ∨ t = "llm" ∨ t = "chatModel" then
    let start := findEvent events id "invoke_start"
    { input := jsOrS (start.bind EventRecord.input_preview)
        (artifactsRoot.formatted_prompt.bind ContentRec.content),
      output := artifactsRoot.llm_output.bind ContentRec.content,
      model_info := some (ModelInfo.named (jsOrS node.configModel node.label)) }
  else if t = "StrOutputParser" ∨ t = "parser" then
    let start := findEvent events id "invoke_start"
    { input := jsOrS (start.bind EventRecord.input_preview)
        (artifactsRoot.llm_output.bind ContentRec.content),
      output := artifactsRoot.final_output.bind ContentRec.content,
      parser_type := some "string" }
  else {}

/-- A renderer node as assembled at App.tsx lines 314-324. -/
structure RFNode where
  id : String
  type : String
  posX : Nat
  posY : Nat
  dataLabel : Option String
  dataType : String
  artifacts : ArtifactView
deriving DecidableEq

/-- The per-node mapping of App.tsx lines 298-325: normalize the type,
build the artifact view, place by list index. -/
def toRFNode (version : String) (events : List EventRecord)
    (artifactsRoot : ArtifactsRoot) (node : NodeRecord) (index : Nat) : RFNode :=
  let nt := normalizedTypeOf node
  { id := node.id,
    type := nt,
    posX := 120 + index * 240,
    posY := 180,
    dataLabel := node.label,
    dataType := nt,
    artifacts := buildNodeArtifacts version events artifactsRoot node }

/-- The full node-list mapping (App.tsx line 298). -/
def reactFlowNodes (version : String) (events : List EventRecord)
    (artifactsRoot : ArtifactsRoot) (nodes : List NodeRecord) : List RFNode :=
  nodes.enum.map (fun p => toRFNode version events artifactsRoot p.2 p.1)

/-- Endpoint resolution of App.tsx lines 329-330: a bare string is used
as is; a composite endpoint contributes its `nodeId`. -/
def resolveEndpoint : EdgeEndpoint → String
  | .str s => s
  | .ref nodeId _ => nodeId

/-- A renderer edge as assembled at App.tsx lines 327-333. -/
structure RFEdge where
  id : String
  source : String
  target : String
  animated : Bool
  label : String
deriving DecidableEq

/-- The per-edge mapping of App.tsx lines 327-333. -/
def toRFEdge (e : EdgeRecord) : RFEdge :=
  { id := e.id,
    source := resolveEndpoint e.source,
    target := resolveEndpoint e.target,
    animated := true,
    label := e.label.getD "" }

/-- The full edge-list mapping. -/
def reactFlowEdges (edges : List EdgeRecord) : List RFEdge :=
  edges.map toRFEdge

/-- An HTTP response as observed by `fetchApi` / `fetchStatic`:
the ok flag, the status code, and the parse result of the body. -/
structure HttpResponse where
  ok : Bool
  status : Nat
  body : Option GraphDoc
deriving DecidableEq

/-- One fetch attempt (App.tsx lines 190-199): a non-ok response throws
its status; an ok response yields its parsed body or a parse error. -/
def fetchResult (res : HttpResponse) : Except String GraphDoc :=
  if res.ok then
    match res.body with
    | some d => Except.ok d
    | none => Except.error "parse"
  else Except.error (toString res.status)

/-- The resolver's try/catch (App.tsx lines 200-205): attempt the
preferred source; on its failure return whatever the other source
yields (its document, or its error as the surfaced error). -/
def resolveDoc (preferApi : Bool) (apiResult staticResult : Except String GraphDoc) :
    Except String GraphDoc :=
  match (if preferApi then apiResult else staticResult) with
  | Except.ok d => Except.ok d
  | Except.error _ => if preferApi then staticResult else apiResult

/-- Claim C1, counterexample: the raw type "GroqChat" has no alias-table
entry, yet a node carrying it with label prefix "Groq:" is not sent to
the heuristic fallback — the normalizer passes the raw string through,
so the node is not normalized to the llm category. -/
theorem c1_cex :
    aliasMap "GroqChat" = none
    ∧ normalizedTypeOf {id := "n1", type := "GroqChat", label := some "Groq: mixtral"} = "GroqChat"
    ∧ ("GroqChat" : String) ≠ "llm" := by
  decide

/-- Claim C1, amended: the heuristic fallback runs only when the
alias-normalized type is empty or "unknown"; in that case a node whose
label starts with "Groq:" is normalized to the llm category.  The raw
type "Groq" itself is normalized to llm directly by the alias table. -/
theorem c1_amended_thm (n : NodeRecord)
    (h1 : n.type = "unknown" ∨ n.type = "")
    (h2 : leadsWith "Groq:".data ((n.label).getD "").data = true) :
    normalizedTypeOf n = "llm" ∧ normalizeType "Groq" = "llm" := by
  refine ⟨?_, rfl⟩
  have hl : labelHasProviderHead ((n.label).getD "") = true := by
    simp [labelHasProviderHead, h2]
  rcases h1 with h | h <;>
    simp [normalizedTypeOf, normalizedTypeWith, normalizeType, aliasMap, h, heuristicStep, hl]

/-- Claim C1, witness for the amended theorem at a concrete node. -/
theorem c1_amended_witness :
    normalizedTypeOf {id := "g1", type := "unknown", label := some "Groq: llama3"} = "llm"
    ∧ normalizeType "Groq" = "llm" :=
  c1_amended_thm {id := "g1", type := "unknown", label := some "Groq: llama3"}
    (Or.inl rfl) (by decide)

/-- Claim C2, counterexample: under version "1.2" the llm branch sources
`input` from the start event's preview even though the artifacts record
provides the field — the event wins, not the artifact. -/
theorem c2_cex :
    (buildNodeArtifacts "1.2"
        [{node_id := some "llm1", kind := some "invoke_start", input_preview := some "EVENT"}]
        {formatted_prompt := some {content := some "ARTIFACT"}}
        {id := "llm1", type := "Groq"}).input = some "EVENT"
    ∧ ({formatted_prompt := some {content := some "ARTIFACT"}} :
        ArtifactsRoot).formatted_prompt.bind ContentRec.content = some "ARTIFACT"
    ∧ (some "EVENT" : Option String) ≠ some "ARTIFACT" := by
  decide

/-- Claim C2, amended: under version "1.2", for an llm-category raw
type, the view's `input` is sourced from the matching start event's
non-empty preview whenever one exists — the artifacts record is only a
fallback for this field, regardless of whether it provides a value. -/
theorem c2_amended_thm (events : List EventRecord) (ar : ArtifactsRoot)
    (n : NodeRecord) (p : String)
    (ht : n.type = "ChatOpenAI" ∨ n.type = "ChatAnthropic" ∨ n.type = "Groq"
      ∨ n.type = "llm" ∨ n.type = "chatModel")
    (hp : (findEvent events n.id "invoke_start").bind EventRecord.input_preview = some p)
    (hne : p ≠ "") :
    (buildNodeArtifacts "1.2" events ar n).input = some p := by
  rcases ht with h | h | h | h | h <;>
    simp [buildNodeArtifacts, h, hp, jsOrS, hne]

/-- Claim C2, witness for the amended theorem at a concrete document. -/
theorem c2_amended_witness :
    (buildNodeArtifacts "1.2"
        [{node_id := some "L", kind := some "invoke_start", input_preview := some "hello"}]
        {} {id := "L", type := "Groq"}).input = some "hello" :=
  c2_amended_thm
    [{node_id := some "L", kind := some "invoke_start", input_preview := some "hello"}]
    {} {id := "L", type := "Groq"} "hello"
    (Or.inr (Or.inr (Or.inl rfl))) (by decide) (by decide)

/-- Claim C3: with the live source preferred, a failing live attempt
(any non-ok response, e.g. HTTP 503) falls back to the snapshot source,
and a valid snapshot document is returned without raising; when the
preferred attempt succeeds its document is returned directly. -/
theorem c3_resolver_fallback (api snap : HttpResponse) (d d0 : GraphDoc)
    (h1 : api.ok = false)
    (h2 : fetchResult snap = Except.ok d) :
    resolveDoc true (fetchResult api) (fetchResult snap) = Except.ok d
    ∧ ∀ s : Except String GraphDoc, resolveDoc true (Except.ok d0) s = Except.ok d0 := by
  constructor
  · have ha : fetchResult api = Except.error (toString api.status) := by
      simp [fetchResult, h1]
    simp [resolveDoc, ha, h2]
  · intro s
    rfl

/-- Claim C3, witness: live returns 503, snapshot returns a document. -/
theorem c3_witness :
    resolveDoc true (fetchResult {ok := false, status := 503, body := none})
        (fetchResult {ok := true, status := 200, body := some {}}) = Except.ok {}
    ∧ ∀ s : Except String GraphDoc, resolveDoc true (Except.ok {}) s = Except.ok {} :=
  c3_resolver_fallback {ok := false, status := 503, body := none}
    {ok := true, status := 200, body := some {}} {} {} rfl rfl

/-- Claim C4, counterexample: under version "1.2" the artifact values
are read from the fixed named key `formatted_prompt` of the shared bag,
not from a record keyed by the node's own id — two prompt nodes with
different ids receive the same non-trivial view. -/
theorem c4_cex :
    buildNodeArtifacts "1.2" [] {formatted_prompt := some {content := some "X"}}
        {id := "alpha", type := "PromptTemplate"}
      = buildNodeArtifacts "1.2" [] {formatted_prompt := some {content := some "X"}}
          {id := "beta", type := "PromptTemplate"}
    ∧ (buildNodeArtifacts "1.2" [] {formatted_prompt := some {content := some "X"}}
        {id := "beta", type := "PromptTemplate"}).resolved_prompt = some "X" := by
  decide

/-- Claim C4, amended: dispatch is version first, category second;
under "1.1" artifacts are read by role name from the shared bag (keys
prompt, llm, parser), while under the later version they are read from
fixed named keys of the shared bag (formatted_prompt, llm_output,
final_output), independent of the node's id. -/
theorem c4_amended_thm (ev : List EventRecord) (ar : ArtifactsRoot) (n m : NodeRecord)
    (hn : n.type = "llm") (hnid : n.id ≠ "prompt")
    (hm : m.type = "PromptTemplate") :
    (buildNodeArtifacts "1.1" ev ar n).output = (ar.llm.getD {}).output
    ∧ (buildNodeArtifacts "1.1" ev ar n).input = (ar.llm.getD {}).input
    ∧ (buildNodeArtifacts "1.2" ev ar m).resolved_prompt
        = ar.formatted_prompt.bind ContentRec.content := by
  refine ⟨?_, ?_, ?_⟩ <;>
    simp [buildNodeArtifacts, hn, hnid, hm]

/-- Claim C4, witness for the amended theorem at a concrete document. -/
theorem c4_amended_witness :
    (buildNodeArtifacts "1.1" []
        {llm := some {input := some "i", output := some "o"},
         formatted_prompt := some {content := some "c"}}
        {id := "node7", type := "llm"}).output
      = (({llm := some {input := some "i", output := some "o"},
           formatted_prompt := some {content := some "c"}} :
            ArtifactsRoot).llm.getD {}).output
    ∧ (buildNodeArtifacts "1.1" []
        {llm := some {input := some "i", output := some "o"},
         formatted_prompt := some {content := some "c"}}
        {id := "node7", type := "llm"}).input
      = (({llm := some {input := some "i", output := some "o"},
           formatted_prompt := some {content := some "c"}} :
            ArtifactsRoot).llm.getD {}).input
    ∧ (buildNodeArtifacts "1.2" []
        {llm := some {input := some "i", output := some "o"},
         formatted_prompt := some {content := some "c"}}
        {id := "anything", type := "PromptTemplate"}).resolved_prompt
      = ({llm := some {input := some "i", output := some "o"},
          formatted_prompt := some {content := some "c"}} :
           ArtifactsRoot).formatted_prompt.bind ContentRec.content :=
  c4_amended_thm []
    {llm := some {input := some "i", output := some "o"},
     formatted_prompt := some {content := some "c"}}
    {id := "node7", type := "llm"} {id := "anything", type := "PromptTemplate"}
    rfl (by decide) rfl

/-- Claim C5: a document whose metadata lacks the version field selects
"1.1", and the whole per-node mapping behaves identically to a document
declaring version "1.1". -/
theorem c5_version_default :
    versionOf none = "1.1"
    ∧ ∀ (ev : List EventRecord) (ar : ArtifactsRoot) (n : NodeRecord) (i : Nat),
        toRFNode (versionOf none) ev ar n i = toRFNode (versionOf (some "1.1")) ev ar n i :=
  ⟨rfl, fun _ _ _ _ => rfl⟩

/-- Claim C6: an edge endpoint resolves to itself when it is a bare
string and to its `nodeId` when it is composite; the edge mapping uses
exactly this resolution for source and target, and in particular a
composite endpoint with node id "llm" resolves to "llm" whatever its
port. -/
theorem c6_endpoint_resolution (s nid : String) (pid : Option String) (e : EdgeRecord) :
    resolveEndpoint (EdgeEndpoint.str s) = s
    ∧ resolveEndpoint (EdgeEndpoint.ref nid pid) = nid
    ∧ (toRFEdge e).source = resolveEndpoint e.source
    ∧ (toRFEdge e).target = resolveEndpoint e.target
    ∧ resolveEndpoint (EdgeEndpoint.ref "llm" pid) = "llm" :=
  ⟨rfl, rfl, rfl, rfl, rfl⟩

/-- Claim C7, counterexample: the projector dispatches on the raw type
and id, not the normalized category — a node whose normalized category
("Weird") matches no known category still receives a non-empty view
because its id is "llm". -/
theorem c7_cex :
    normalizedTypeOf {id := "llm", type := "Weird"} = "Weird"
    ∧ "Weird" ∉ knownCategories
    ∧ buildNodeArtifacts "1.1" [] {llm := some {input := some "x"}}
        {id := "llm", type := "Weird"} ≠ ({} : ArtifactView) := by
  decide

/-- Claim C7, amended: the normalizer and projector are total and never
fail; the projector returns the empty view for every node whose id and
raw type match none of its dispatch branches (under any version).
Dispatch is on the raw type and id, not the normalized category, so
unknown-category nodes with a recognized id or raw type may still get a
non-empty view. -/
theorem c7_amended_thm (v : String) (ev : List EventRecord) (ar : ArtifactsRoot)
    (n : NodeRecord)
    (h1 : n.id ≠ "prompt") (h2 : n.id ≠ "llm") (h3 : n.id ≠ "parser")
    (h4 : n.type ∉ (["promptTemplate", "PromptTemplate", "chatModel", "llm",
        "ChatOpenAI", "ChatAnthropic", "Groq", "parser", "StrOutputParser"] : List String)) :
    buildNodeArtifacts v ev ar n = ({} : ArtifactView) := by
  simp only [List.mem_cons, List.not_mem_nil, or_false, not_or] at h4
  obtain ⟨t1, t2, t3, t4, t5, t6, t7, t8, t9⟩ := h4
  by_cases hv : v = "1.1" <;>
    simp [buildNodeArtifacts, hv, h1, h2, h3, t1, t2, t3, t4, t5, t6, t7, t8, t9]

/-- Claim C7, witness for the amended theorem at a concrete node. -/
theorem c7_amended_witness :
    buildNodeArtifacts "2.0" [] {} {id := "mystery", type := "Weird"} = ({} : ArtifactView) :=
  c7_amended_thm "2.0" [] {} {id := "mystery", type := "Weird"}
    (by decide) (by decide) (by decide) (by decide)

/-- Claim C8: normalization is deterministic and depends only on the
node record itself — the category assigned by the per-node mapping is
unchanged under any change of schema version, event list, artifact bag,
or list position, and always equals `normalizedTypeOf`. -/
theorem c8_normalization_deterministic (v w : String) (ev ew : List EventRecord)
    (ar aw : ArtifactsRoot) (n : NodeRecord) (i j : Nat) :
    (toRFNode v ev ar n i).type = (toRFNode w ew aw n j).type
    ∧ (toRFNode v ev ar n i).type = normalizedTypeOf n :=
  ⟨rfl, rfl⟩

/-- Claim C9: a non-empty raw type other than "unknown" that misses the
alias table is passed through unchanged, and the heuristic fallback is
never consulted — the result is the same for every possible fallback
function. -/
theorem c9_alias_miss (f : NodeRecord → String → String) (n : NodeRecord)
    (h1 : n.type ≠ "") (h2 : n.type ≠ "unknown") (h3 : aliasMap n.type = none) :
    normalizedTypeWith f n = n.type ∧ normalizedTypeOf n = n.type := by
  have hnt : normalizeType n.type = n.type := by simp [normalizeType, h3]
  constructor <;>
    simp [normalizedTypeOf, normalizedTypeWith, hnt, h1, h2]

/-- Claim C9, witness: an adversarial fallback that would answer "llm"
is ignored for a concrete unaliased raw type. -/
theorem c9_witness :
    normalizedTypeWith (fun _ _ => "llm") {id := "n9", type := "FancyModel"} = "FancyModel"
    ∧ normalizedTypeOf {id := "n9", type := "FancyModel"} = "FancyModel" :=
  c9_alias_miss (fun _ _ => "llm") {id := "n9", type := "FancyModel"}
    (by decide) (by decide) (by decide)

/-- Claim C10: an event whose snake_case `node_id` equals the requested
node id satisfies the lookup predicate and is returned immediately when
first, regardless of its kind; for events not matching via `node_id`,
the predicate requires the camelCase `nodeId` match together with the
kind match — the conjunction binds tighter than the disjunction. -/
theorem c10_findEvent_shape (nid kind : String) (e f : EventRecord)
    (rest : List EventRecord)
    (hk : kind ≠ "")
    (h1 : e.node_id = some nid)
    (h2 : f.node_id ≠ some nid) :
    findEvent (e :: rest) nid kind = some e
    ∧ findEventPred nid kind e = true
    ∧ findEventPred nid kind f
        = (decide (f.nodeId = some nid) && decide (f.kind = some kind)) := by
  have hp : findEventPred nid kind e = true := by simp [findEventPred, h1]
  refine ⟨?_, hp, ?_⟩
  · simp [findEvent, List.find?, hp]
  · simp [findEventPred, h2, hk]

/-- Claim C10, witness: an event recorded with `node_id` and kind
"invoke_end" is returned for a request of kind "invoke_start", while a
camelCase event is filtered by kind. -/
theorem c10_witness :
    findEvent [{node_id := some "n", kind := some "invoke_end"}] "n" "invoke_start"
      = some {node_id := some "n", kind := some "invoke_end"}
    ∧ findEventPred "n" "invoke_start" {node_id := some "n", kind := some "invoke_end"} = true
    ∧ findEventPred "n" "invoke_start" {nodeId := some "n", kind := some "invoke_start"}
        = (decide (({nodeId := some "n", kind := some "invoke_start"} :
              EventRecord).nodeId = some "n")
           && decide (({nodeId := some "n", kind := some "invoke_start"} :
              EventRecord).kind = some "invoke_start")) :=
  c10_findEvent_shape "n" "invoke_start"
    {node_id := some "n", kind := some "invoke_end"}
    {nodeId := some "n", kind := some "invoke_start"} []
    (by decide) rfl (by decide)

end Viz
